import Mathlib

/-!
Shallow embedding of the session/time-accounting core of
`src/activity_logger_v10.py` (class `StopwatchApp`).

Modelling conventions:
* Wall-clock instants are whole seconds since an arbitrary epoch (`Nat`).
  Every datetime the core compares or subtracts is second-aligned in the
  source (`replace(microsecond=0)`, `time.mktime(...timetuple())`,
  `strftime` with second resolution), so nothing finer is needed.
* Calendar dates are day indices: `dateOf t = t / 86400`; the start of the
  day following `t` is `(dateOf t + 1) * 86400`, exactly
  `datetime.combine(reference_dt.date() + timedelta(days=1), time.min)`.
* All durations and credits the core computes on second-aligned instants
  are integral, so the REAL columns are modelled as `Nat` (a credit is only
  ever stored after a positivity check) and signed deltas as `Int`.
* The sqlite tables `activities`, `sessions`, `daily_totals` are
  association lists; `INTEGER PRIMARY KEY` row ids are `next_…` counters
  starting at 1, as sqlite allocates them for a fresh database.
* Tk widgets, fonts, the overlay, the hotkey thread and `start_timestamp`
  (a display-only string copy of `start_time`) are omitted: no modelled
  operation reads them.
-/

namespace ActivityLogger

/-- One row of the `sessions` table (`_init_db`, lines 176-185 of the
source). `duration_sec` is stored clamped to zero by
`_update_current_session_row`, hence `Nat`. -/
structure Session where
  id : Nat
  activity_id : Nat
  start_ts : Nat
  end_ts : Nat
  duration_sec : Nat
  deriving DecidableEq

/-- The in-memory tracker state of `StopwatchApp` (fields set up in
`__init__`, lines 91-101) together with the three persisted tables. -/
structure TrackerState where
  running : Bool
  start_time : Option Nat
  current_activity_id : Option Nat
  current_activity_name : Option String
  current_session_id : Option Nat
  last_autosave_dt : Nat
  activities : List (Nat × String)
  next_activity_id : Nat
  sessions : List Session
  next_session_id : Nat
  daily_totals : List ((Nat × Nat) × Nat)
  deriving DecidableEq

/-- Calendar date (day index) of an instant: `dt.date()`. -/
def dateOf (t : Nat) : Nat := t / 86400

/-- Start of the day following `t`:
`datetime.combine(t.date() + timedelta(days=1), time.min)` (line 305). -/
def midnightAfter (t : Nat) : Nat := (dateOf t + 1) * 86400

/-- Convenience constructor for an instant on day `day` at `h:m:s`. -/
def mkDT (day h m s : Nat) : Nat := day * 86400 + h * 3600 + m * 60 + s

/-- Day index of 2024-01-01 for an epoch at 1970-01-01 (54 years, 13 of
them leap). -/
def date20240101 : Nat := 19723

/-- Day index of 2024-01-02. -/
def date20240102 : Nat := 19724

/-- Day index of 2024-01-03. -/
def date20240103 : Nat := 19725

/-- SQLite `COLLATE NOCASE` folds only the ASCII letters A-Z. -/
def asciiLower (c : Char) : Char :=
  if 'A' ≤ c ∧ c ≤ 'Z' then Char.ofNat (c.toNat + 32) else c

/-- Case folding used by the `UNIQUE COLLATE NOCASE` column of
`activities` (line 173): ASCII-only lowercasing. -/
def foldCase (s : String) : String := String.mk (s.data.map asciiLower)

/-- `_seed_default_activities` (lines 197-201): the five defaults plus
the `Custom` sentinel, inserted into a fresh table in this order. -/
def seedActivities : List (Nat × String) :=
  [(1, "Work"), (2, "Study"), (3, "Break"), (4, "Waste"), (5, "Projects"), (6, "Custom")]

/-- State after `__init__` has created the tables, seeded the activities
and initialised the tracker fields (lines 84-101), before the automatic
first `_start_activity` call; `t0` is `datetime.now().replace(microsecond=0)`
stored into `_last_autosave_dt`. -/
def initState (t0 : Nat) : TrackerState :=
  { running := false
    start_time := none
    current_activity_id := none
    current_activity_name := none
    current_session_id := none
    last_autosave_dt := t0
    activities := seedActivities
    next_activity_id := 7
    sessions := []
    next_session_id := 1
    daily_totals := [] }

/-- `_add_to_daily_total` (lines 359-367): upsert on the primary key
`(date, activity_id)`, adding `seconds` on conflict. -/
def add_to_daily_total (s : TrackerState) (d aid secs : Nat) : TrackerState :=
  { s with daily_totals :=
      if s.daily_totals.any (fun e => e.1.1 == d && e.1.2 == aid) then
        s.daily_totals.map (fun e => if e.1.1 == d && e.1.2 == aid then (e.1, e.2 + secs) else e)
      else
        s.daily_totals ++ [((d, aid), secs)] }

/-- `_get_or_create_activity` (lines 209-213): `INSERT OR IGNORE` against
the NOCASE-unique column, then `SELECT id … WHERE name = ?`, which also
compares under the column's NOCASE collation. -/
def get_or_create_activity (s : TrackerState) (name : String) : TrackerState × Nat :=
  match s.activities.find? (fun p => foldCase p.2 == foldCase name) with
  | some p => (s, p.1)
  | none =>
      let aid := s.next_activity_id
      ({ s with activities := s.activities ++ [(aid, name)], next_activity_id := aid + 1 }, aid)

/-- `_create_new_session_row` (lines 232-241): insert a row for the
current activity with `end_ts = start_ts` and `duration_sec = 0` and
remember its id. Every call site has `current_activity_id` set; on `none`
the source's INSERT would violate the NOT NULL constraint. -/
def create_new_session_row (s : TrackerState) (start_dt : Nat) : TrackerState :=
  match s.current_activity_id with
  | some aid =>
      { s with
        sessions := s.sessions ++ [{ id := s.next_session_id, activity_id := aid,
                                     start_ts := start_dt, end_ts := start_dt, duration_sec := 0 }]
        next_session_id := s.next_session_id + 1
        current_session_id := some s.next_session_id }
  | none => s

/-- The row update performed by `_update_current_session_row` (lines
248-251) on the row whose id is `sid`: set `end_ts` and
`duration_sec = max(0, end_dt - start_time)`. -/
def setEnd (end_dt st sid : Nat) (r : Session) : Session :=
  if r.id == sid then
    { r with end_ts := end_dt, duration_sec := ((end_dt : Int) - (st : Int)).toNat }
  else r

/-- `_update_current_session_row` (lines 243-252): no-op unless running
with a live row and a start time. -/
def update_current_session_row (s : TrackerState) (end_dt : Nat) : TrackerState :=
  match s.running, s.current_session_id, s.start_time with
  | true, some sid, some st => { s with sessions := s.sessions.map (setEnd end_dt st sid) }
  | _, _, _ => s

/-- `_finalize_current_session_row` (lines 254-257): one last row update,
then forget the live row id. -/
def finalize_current_session_row (s : TrackerState) (end_dt : Nat) : TrackerState :=
  { update_current_session_row s end_dt with current_session_id := none }

/-- `_save_previous_activity_if_running` (lines 283-290): finalize the
live row at `now` and drop to the idle state. It writes no daily total. -/
def save_previous_activity_if_running (s : TrackerState) (now : Nat) : TrackerState :=
  if s.running = true ∧ s.current_activity_id ≠ none ∧ s.start_time ≠ none then
    let s1 := finalize_current_session_row s now
    { s1 with running := false, start_time := none }
  else s

/-- `_start_activity` (lines 259-281, overlay policy omitted): finalize a
running session, resolve the name, reset `start_time` and
`_last_autosave_dt` to `now`, and open a fresh live row. -/
def start_activity (s : TrackerState) (name : String) (now : Nat) : TrackerState :=
  let s1 := save_previous_activity_if_running s now
  let g := get_or_create_activity s1 name
  let s3 := { g.1 with
              current_activity_name := some name
              current_activity_id := some g.2
              running := true
              start_time := some now
              last_autosave_dt := now }
  create_new_session_row s3 now

/-- `_rollover_midnight_if_needed` (lines 293-319): if the date changed
between `reference_dt` and `now_dt`, credit the seconds up to midnight to
`reference_dt`'s date, finalize the live row at midnight, open a fresh
row starting at midnight, and return midnight as the new reference. -/
def rollover_midnight_if_needed (s : TrackerState) (reference_dt now_dt : Nat) :
    TrackerState × Nat :=
  match s.running, s.current_activity_id with
  | true, some aid =>
      if dateOf reference_dt = dateOf now_dt then (s, reference_dt)
      else
        let midnight := midnightAfter reference_dt
        let secsToMidnight : Int := (midnight : Int) - (reference_dt : Int)
        let s1 :=
          if 0 < secsToMidnight then
            finalize_current_session_row
              (add_to_daily_total s (dateOf reference_dt) aid secsToMidnight.toNat) midnight
          else s
        let s2 := { s1 with running := true, start_time := some midnight }
        (create_new_session_row s2 midnight, midnight)
  | _, _ => (s, reference_dt)

/-- `_do_autosave` (lines 331-357, overlay rendering omitted): the
reconciliation tick. Idle: just move the checkpoint to `now_dt`. Running:
handle a date change, credit the positive delta since the (possibly
rolled-over) reference to `now_dt`'s date, advance the checkpoint only in
that case, and always refresh the live row. The inner match rereads
`current_activity_id` as the source does; the rollover never changes it. -/
def do_autosave (s : TrackerState) (now_dt : Nat) : TrackerState :=
  match s.running, s.current_activity_id with
  | true, some _ =>
      let r := rollover_midnight_if_needed s s.last_autosave_dt now_dt
      let delta : Int := (now_dt : Int) - (r.2 : Int)
      let s2 :=
        if 0 < delta then
          match r.1.current_activity_id with
          | some aid =>
              { add_to_daily_total r.1 (dateOf now_dt) aid delta.toNat with
                last_autosave_dt := now_dt }
          | none => r.1
        else r.1
      update_current_session_row s2 now_dt
  | _, _ => { s with last_autosave_dt := now_dt }

/-- `_switch_activity` (lines 380-392) for a concrete selection: the
`Custom` branch only opens a dialog (and, when a name is typed, routes
back through `start_activity` with that name); selecting any other name
starts it unconditionally. -/
def switch_activity (s : TrackerState) (selected : String) (now : Nat) : TrackerState :=
  if selected = "Custom" then s
  else start_activity s selected now

/-- `start` (lines 394-397): the Start button is a no-op while running;
when idle it starts the currently selected name. -/
def start (s : TrackerState) (name : String) (now : Nat) : TrackerState :=
  if s.running = true then s else start_activity s name now

/-- `stop` (lines 399-402): a final autosave increment, then finalize the
live session row. -/
def stop (s : TrackerState) (now : Nat) : TrackerState :=
  save_previous_activity_if_running (do_autosave s now) now

/-- The elapsed duration computed by `_current_time_text` (lines 612-620)
before formatting: `time.time() - start_time` when running with a start
time, else zero. No clamping is applied. -/
def currentElapsed (s : TrackerState) (now : Nat) : Int :=
  match s.running, s.start_time with
  | true, some st => (now : Int) - (st : Int)
  | _, _ => 0

/-- The external triggers of the core, each carrying the wall-clock
instant at which it fires. -/
inductive Op where
  | startOp : String → Nat → Op
  | switchOp : String → Nat → Op
  | stopOp : Nat → Op
  | tickOp : Nat → Op
  deriving DecidableEq

/-- Dispatch one trigger to the corresponding handler. -/
def applyOp (s : TrackerState) : Op → TrackerState
  | .startOp name t => start s name t
  | .switchOp name t => switch_activity s name t
  | .stopOp t => stop s t
  | .tickOp t => do_autosave s t

/-- Run a finite sequence of triggers. -/
def run (s : TrackerState) (ops : List Op) : TrackerState := ops.foldl applyOp s

/-- The instant at which a trigger fires. -/
def Op.time : Op → Nat
  | .startOp _ t => t
  | .switchOp _ t => t
  | .stopOp t => t
  | .tickOp t => t

/-- Total wall-clock seconds the tracker spends in the Running state
while the sequence plays out, measured from `prev` to the last trigger. -/
def runningSeconds : TrackerState → Nat → List Op → Nat
  | _, _, [] => 0
  | s, prev, op :: rest =>
      (if s.running then op.time - prev else 0) + runningSeconds (applyOp s op) op.time rest

/-- Sum of all seconds recorded in `daily_totals`. -/
def sumDailySeconds (s : TrackerState) : Nat :=
  (s.daily_totals.map (fun e => e.2)).sum

/-- Seconds of `daily_totals` recorded for one `(date, activity)` key. -/
def dailyTotalFor (s : TrackerState) (d aid : Nat) : Nat :=
  ((s.daily_totals.filter (fun e => e.1.1 == d && e.1.2 == aid)).map (fun e => e.2)).sum

/-- The session rows that are live, i.e. still being updated: those whose
id is the remembered `current_session_id`. -/
def liveRows (s : TrackerState) : List Session :=
  match s.current_session_id with
  | some sid => s.sessions.filter (fun r => r.id == sid)
  | none => []

/-- Recorded duration of the live session, zero when idle. -/
def liveSessionDuration (s : TrackerState) : Nat :=
  ((liveRows s).map (fun r => r.duration_sec)).sum

/-- 2024-01-01 10:00:00, a mid-morning instant used by the concrete
scenarios. -/
def t1C1 : Nat := mkDT date20240101 10 0 0

/-- A tracker that has been running the seeded activity Work (id 1) since
2024-01-01 10:00:00, with the reconciliation checkpoint at that instant. -/
def runningWork : TrackerState := run (initState t1C1) [Op.startOp "Work" t1C1]

/-- Start Work at 10:00:00, switch to Study 30 s later, stop 15 s after
that: 45 s of Running time in total. -/
def opsC1 : List Op :=
  [Op.startOp "Work" t1C1, Op.switchOp "Study" (t1C1 + 30), Op.stopOp (t1C1 + 45)]

/-- Final state of the conservation scenario. -/
def finC1 : TrackerState := run (initState t1C1) opsC1

/-- A session for Work running since 2024-01-01 23:58:00 (checkpoint at
the session start) that receives a tick at 2024-01-02 00:02:00. -/
def stateC2 : TrackerState :=
  run (initState (mkDT date20240101 23 58 0))
    [Op.switchOp "Work" (mkDT date20240101 23 58 0), Op.tickOp (mkDT date20240102 0 2 0)]

/-- A tracker running Work since 2024-01-02 00:10:00, about to see a tick
whose timestamp lies before the reconciliation checkpoint. -/
def stateC7 : TrackerState :=
  run (initState (mkDT date20240102 0 10 0)) [Op.startOp "Work" (mkDT date20240102 0 10 0)]

/-- Start Work at 2024-01-01 23:00:00, then a single tick at
2024-01-03 01:00:00 — two midnight boundaries inside one tick. -/
def finC8 : TrackerState :=
  run (initState (mkDT date20240101 23 0 0))
    [Op.startOp "Work" (mkDT date20240101 23 0 0), Op.tickOp (mkDT date20240103 1 0 0)]

/-- Start Work at 2024-01-01 23:58:00 and tick exactly at midnight: the
rollover opens a fresh session at 00:00:00 while the credited delta is
zero, so `_last_autosave_dt` is left at 23:58:00. -/
def stateC10 : TrackerState :=
  run (initState (mkDT date20240101 23 58 0))
    [Op.startOp "Work" (mkDT date20240101 23 58 0), Op.tickOp (mkDT date20240102 0 0 0)]

/-- Session-table invariant maintained by every operation: row ids stay
below the id counter, Idle states hold no live-row pointer, Running
states carry an activity and a start time, and the live pointer (when
set) singles out exactly one row, whose activity is the current one. -/
def SessionInv (s : TrackerState) : Prop :=
  (∀ r ∈ s.sessions, r.id < s.next_session_id) ∧
  (s.running = false → s.current_session_id = none) ∧
  (s.running = true → s.current_activity_id ≠ none ∧ s.start_time ≠ none) ∧
  (∀ sid, s.current_session_id = some sid →
      ∃ r, s.sessions.filter (fun x => x.id == sid) = [r] ∧
           some r.activity_id = s.current_activity_id)

end ActivityLogger

namespace ActivityLogger

/-- Claim C1 (code bug): conservation fails on the code. Over the 45 s
scenario `opsC1` — Work started 10:00:00, switched to Study at 10:00:30,
stopped at 10:00:45 — the tracker is Running for 45 s, but only 15 s ever
reach `daily_totals` (Study's 15 s, credited by the autosave inside
`stop`) and no live session remains: the 30 s of Work are lost because
`_start_activity` finalizes the previous session row without any
daily-total flush. The claimed identity `credited + live = running`
would require 45. -/
theorem C1_conservation_fails :
    sumDailySeconds finC1 + liveSessionDuration finC1 = 15 ∧
    finC1.current_session_id = none ∧
    runningSeconds (initState t1C1) t1C1 opsC1 = 45 := by
  decide

/-- Claim C2 (confirmed): the day-split scenario. With Work (activity
id 1) running since 2024-01-01 23:58:00 and a tick at 2024-01-02
00:02:00, exactly 120 s are credited to (2024-01-01, Work) and 120 s to
(2024-01-02, Work); the original session row is finalized with
`end_ts = 2024-01-02 00:00:00` and `duration_sec = 120`; and a new live
session row (id 2, the one `current_session_id` points at) is opened with
`start_ts = 2024-01-02 00:00:00`. -/
theorem C2_day_split_correct :
    dailyTotalFor stateC2 date20240101 1 = 120 ∧
    dailyTotalFor stateC2 date20240102 1 = 120 ∧
    stateC2.sessions =
      [⟨1, 1, mkDT date20240101 23 58 0, mkDT date20240102 0 0 0, 120⟩,
       ⟨2, 1, mkDT date20240102 0 0 0, mkDT date20240102 0 2 0, 120⟩] ∧
    stateC2.current_session_id = some 2 ∧
    stateC2.current_activity_id = some 1 := by
  decide

/-- Claim C4 (code bug): while Running, the elapsed time since the last
checkpoint is NOT credited before the session row is closed. Starting
from `runningWork` (Running Work, checkpoint 10:00:00), `_start_activity`
at 10:00:30 closes the Work row with 30 s recorded and opens the Study
row, yet `daily_totals` stays empty — no flush happens. Moreover the
`start` entry point itself is a no-op while Running. -/
theorem C4_start_does_not_flush :
    runningWork.running = true ∧
    start runningWork "Study" (t1C1 + 30) = runningWork ∧
    sumDailySeconds (start_activity runningWork "Study" (t1C1 + 30)) = 0 ∧
    (start_activity runningWork "Study" (t1C1 + 30)).sessions =
      [⟨1, 1, t1C1, t1C1 + 30, 30⟩, ⟨2, 2, t1C1 + 30, t1C1 + 30, 0⟩] := by
  decide

/-- Claim C5 (counterexample): `switch` and `start` are not equivalent in
the Running state. On `runningWork`, `start` with a different activity is
the identity, while `switch_activity` finalizes and reopens. -/
theorem C5_switch_start_differ :
    runningWork.running = true ∧
    start runningWork "Study" (t1C1 + 300) = runningWork ∧
    switch_activity runningWork "Study" (t1C1 + 300) ≠
      start runningWork "Study" (t1C1 + 300) := by
  decide

/-- Claim C6 (counterexample): no clamping to zero. With Work running
since 10:00:00, a clock reading of 09:59:00 makes the elapsed duration
of `_current_time_text` equal to -60, not the claimed 0. -/
theorem C6_negative_elapsed :
    runningWork.running = true ∧
    runningWork.start_time = some t1C1 ∧
    mkDT date20240101 9 59 0 < t1C1 ∧
    currentElapsed runningWork (mkDT date20240101 9 59 0) = -60 ∧
    currentElapsed runningWork (mkDT date20240101 9 59 0) ≠ 0 := by
  decide

/-- Claim C7 (counterexample): a tick whose timestamp 2024-01-01 23:50:00
lies before the checkpoint 2024-01-02 00:10:00 does not credit zero
seconds — the date change pushes it through the midnight rollover, which
credits 85800 phantom seconds to (2024-01-02, Work). -/
theorem C7_backward_tick_credits :
    mkDT date20240101 23 50 0 < stateC7.last_autosave_dt ∧
    sumDailySeconds stateC7 = 0 ∧
    sumDailySeconds (do_autosave stateC7 (mkDT date20240101 23 50 0)) = 85800 := by
  decide

/-- Claim C8 (code bug): only one midnight boundary is processed per
tick. Running since 2024-01-01 23:00:00 with a tick at 2024-01-03
01:00:00, the code credits 3600 s to 2024-01-01, nothing at all to the
intermediate day 2024-01-02 (the claim requires 86400), and 90000 s to
2024-01-03 (the claim requires 3600). -/
theorem C8_single_boundary_per_tick :
    finC8.running = true ∧
    dailyTotalFor finC8 date20240101 1 = 3600 ∧
    dailyTotalFor finC8 date20240102 1 = 0 ∧
    dailyTotalFor finC8 date20240103 1 = 90000 := by
  decide

/-- Claim C10 (counterexample): after a tick landing exactly on midnight,
the checkpoint `_last_autosave_dt` (still 23:58:00) is earlier than the
`start_ts` (00:00:00) of the live session the rollover opened, refuting
the claimed invariant that the checkpoint is never earlier than the live
session's start. -/
theorem C10_checkpoint_behind_live_start :
    liveRows stateC10 =
      [⟨2, 1, mkDT date20240102 0 0 0, mkDT date20240102 0 0 0, 0⟩] ∧
    stateC10.last_autosave_dt = mkDT date20240101 23 58 0 ∧
    stateC10.last_autosave_dt < mkDT date20240102 0 0 0 := by
  decide

/-- `update_current_session_row` touches only the `sessions` list. -/
theorem update_fields (s : TrackerState) (t : Nat) :
    (update_current_session_row s t).running = s.running ∧
    (update_current_session_row s t).start_time = s.start_time ∧
    (update_current_session_row s t).current_activity_id = s.current_activity_id ∧
    (update_current_session_row s t).current_session_id = s.current_session_id ∧
    (update_current_session_row s t).last_autosave_dt = s.last_autosave_dt ∧
    (update_current_session_row s t).daily_totals = s.daily_totals ∧
    (update_current_session_row s t).next_session_id = s.next_session_id ∧
    (update_current_session_row s t).activities = s.activities ∧
    (update_current_session_row s t).next_activity_id = s.next_activity_id := by
  obtain ⟨r1, st1, aid1, nm1, sid1, la1, ac1, na1, se1, ns1, dt1⟩ := s
  cases r1 <;> cases sid1 <;> cases st1 <;>
    exact ⟨rfl, rfl, rfl, rfl, rfl, rfl, rfl, rfl, rfl⟩

/-- `create_new_session_row` touches only the session table, its id
counter and the live-row pointer. -/
theorem create_fields (s : TrackerState) (t : Nat) :
    (create_new_session_row s t).running = s.running ∧
    (create_new_session_row s t).start_time = s.start_time ∧
    (create_new_session_row s t).current_activity_id = s.current_activity_id ∧
    (create_new_session_row s t).last_autosave_dt = s.last_autosave_dt ∧
    (create_new_session_row s t).daily_totals = s.daily_totals ∧
    (create_new_session_row s t).activities = s.activities ∧
    (create_new_session_row s t).next_activity_id = s.next_activity_id := by
  obtain ⟨r1, st1, aid1, nm1, sid1, la1, ac1, na1, se1, ns1, dt1⟩ := s
  cases aid1 <;> exact ⟨rfl, rfl, rfl, rfl, rfl, rfl, rfl⟩

/-- `get_or_create_activity` touches only the activity table and its id
counter. -/
theorem get_or_create_fields (s : TrackerState) (name : String) :
    (get_or_create_activity s name).1.running = s.running ∧
    (get_or_create_activity s name).1.start_time = s.start_time ∧
    (get_or_create_activity s name).1.current_activity_id = s.current_activity_id ∧
    (get_or_create_activity s name).1.current_session_id = s.current_session_id ∧
    (get_or_create_activity s name).1.last_autosave_dt = s.last_autosave_dt ∧
    (get_or_create_activity s name).1.daily_totals = s.daily_totals ∧
    (get_or_create_activity s name).1.sessions = s.sessions ∧
    (get_or_create_activity s name).1.next_session_id = s.next_session_id := by
  unfold get_or_create_activity
  cases h : s.activities.find? (fun p => foldCase p.2 == foldCase name) <;>
    exact ⟨rfl, rfl, rfl, rfl, rfl, rfl, rfl, rfl⟩

/-- If no element of `l1` satisfies `p`, searching the concatenation
starts effectively at `l2`. -/
theorem find?_append_of_none {α : Type} (p : α → Bool) (l1 l2 : List α)
    (h : l1.find? p = none) : (l1 ++ l2).find? p = l2.find? p := by
  rw [List.find?_append, h]
  rfl

/-- A hit in the activity table makes `get_or_create_activity` a pure
lookup. -/
theorem get_or_create_found (s : TrackerState) (name : String) (p : Nat × String)
    (h : s.activities.find? (fun q => foldCase q.2 == foldCase name) = some p) :
    get_or_create_activity s name = (s, p.1) := by
  unfold get_or_create_activity
  rw [h]

/-- A miss in the activity table makes `get_or_create_activity` append a
fresh row and return the fresh id. -/
theorem get_or_create_notfound (s : TrackerState) (name : String)
    (h : s.activities.find? (fun q => foldCase q.2 == foldCase name) = none) :
    get_or_create_activity s name =
      ({ s with activities := s.activities ++ [(s.next_activity_id, name)],
                next_activity_id := s.next_activity_id + 1 }, s.next_activity_id) := by
  unfold get_or_create_activity
  rw [h]

/-- Claim C9 (confirmed): the registry is idempotent up to ASCII case.
For any state and any two spellings with the same NOCASE folding —
for instance "Work" and "WORK" — a second `_get_or_create_activity` call
returns the id produced by the first call and leaves the state (in
particular the `activities` table) unchanged, so no duplicate row is ever
created. -/
theorem C9_get_or_create_idempotent (s : TrackerState) (n1 n2 : String)
    (h : foldCase n1 = foldCase n2) :
    (get_or_create_activity (get_or_create_activity s n1).1 n2).2 =
      (get_or_create_activity s n1).2 ∧
    (get_or_create_activity (get_or_create_activity s n1).1 n2).1 =
      (get_or_create_activity s n1).1 := by
  have hpred : (fun q : Nat × String => foldCase q.2 == foldCase n2) =
      (fun q : Nat × String => foldCase q.2 == foldCase n1) := by
    funext q
    rw [h]
  cases hf : s.activities.find? (fun q => foldCase q.2 == foldCase n1) with
  | some p =>
      have h1 : get_or_create_activity s n1 = (s, p.1) := get_or_create_found s n1 p hf
      have hf2 : s.activities.find? (fun q => foldCase q.2 == foldCase n2) = some p := by
        rw [hpred]
        exact hf
      have h2 : get_or_create_activity s n2 = (s, p.1) := get_or_create_found s n2 p hf2
      rw [h1]
      exact ⟨congrArg Prod.snd h2, congrArg Prod.fst h2⟩
  | none =>
      have h1 : get_or_create_activity s n1 =
          ({ s with activities := s.activities ++ [(s.next_activity_id, n1)],
                    next_activity_id := s.next_activity_id + 1 }, s.next_activity_id) :=
        get_or_create_notfound s n1 hf
      have hfind : (get_or_create_activity s n1).1.activities.find?
          (fun q => foldCase q.2 == foldCase n2) = some (s.next_activity_id, n1) := by
        rw [h1]
        show (s.activities ++ [(s.next_activity_id, n1)]).find?
          (fun q => foldCase q.2 == foldCase n2) = some (s.next_activity_id, n1)
        rw [hpred, find?_append_of_none _ _ _ hf]
        exact List.find?_cons_of_pos [] (by simp)
      have h2 : get_or_create_activity (get_or_create_activity s n1).1 n2 =
          ((get_or_create_activity s n1).1, (s.next_activity_id, n1).1) :=
        get_or_create_found (get_or_create_activity s n1).1 n2 (s.next_activity_id, n1) hfind
      rw [h2, h1]
      exact ⟨rfl, rfl⟩

/-- Claim C9 witness: the concrete instance from the spec, "Work" versus
"WORK" against the freshly seeded table. -/
theorem C9_witness :
    foldCase "Work" = foldCase "WORK" ∧
    ((get_or_create_activity (get_or_create_activity (initState 0) "Work").1 "WORK").2 =
      (get_or_create_activity (initState 0) "Work").2 ∧
     (get_or_create_activity (get_or_create_activity (initState 0) "Work").1 "WORK").1 =
      (get_or_create_activity (initState 0) "Work").1) :=
  ⟨by decide, C9_get_or_create_idempotent (initState 0) "Work" "WORK" (by decide)⟩

/-- Claim C5 (amended, proved): `switch` always routes through the
finalize-then-open primitive `_start_activity` (for any name other than
the `Custom` dialog sentinel), while the `start` entry point does so only
from Idle; while Running, `start` is a no-op. -/
theorem C5_switch_start_amended (s : TrackerState) (name : String) (now : Nat)
    (h : name ≠ "Custom") :
    switch_activity s name now = start_activity s name now ∧
    (s.running = false → start s name now = start_activity s name now) ∧
    (s.running = true → start s name now = s) := by
  refine ⟨?_, ?_, ?_⟩
  · unfold switch_activity
    rw [if_neg h]
  · intro hr
    unfold start
    simp [hr]
  · intro hr
    unfold start
    rw [if_pos hr]

/-- Claim C5 witness: the amended statement applied to the name "Study"
and the freshly initialised (Idle) tracker. -/
theorem C5_witness :
    "Study" ≠ "Custom" ∧
    (switch_activity (initState 0) "Study" 5 = start_activity (initState 0) "Study" 5 ∧
     ((initState 0).running = false →
        start (initState 0) "Study" 5 = start_activity (initState 0) "Study" 5) ∧
     ((initState 0).running = true → start (initState 0) "Study" 5 = initState 0)) :=
  ⟨by decide, C5_switch_start_amended (initState 0) "Study" 5 (by decide)⟩

/-- Claim C6 (amended, proved): the elapsed duration reported while
Running is exactly `now - start_time`, with no clamping (it is negative
whenever the clock reports a time before `start_time`), and it is zero
while Idle; the computation only reads the state. -/
theorem C6_currentElapsed_amended (s : TrackerState) (now : Nat) :
    (∀ st, s.running = true → s.start_time = some st →
        currentElapsed s now = (now : Int) - (st : Int)) ∧
    (s.running = false → currentElapsed s now = 0) := by
  constructor
  · intro st hr hst
    unfold currentElapsed
    rw [hr, hst]
  · intro hr
    unfold currentElapsed
    rw [hr]

/-- Claim C6 witness: on `runningWork` a later clock reading gives the
signed difference, and the freshly initialised Idle tracker reports
zero. -/
theorem C6_witness :
    runningWork.running = true ∧
    runningWork.start_time = some t1C1 ∧
    currentElapsed runningWork (t1C1 + 90) = ((t1C1 + 90 : Nat) : Int) - (t1C1 : Int) ∧
    (initState 0).running = false ∧
    currentElapsed (initState 0) 7 = 0 :=
  ⟨by decide, by decide,
   (C6_currentElapsed_amended runningWork (t1C1 + 90)).1 t1C1 (by decide) (by decide),
   rfl, (C6_currentElapsed_amended (initState 0) 7).2 rfl⟩

/-- Every instant is strictly before the following midnight. -/
theorem midnightAfter_gt (t : Nat) : t < midnightAfter t := by
  unfold midnightAfter dateOf
  have h1 := Nat.div_add_mod t 86400
  have h2 : t % 86400 < 86400 := Nat.mod_lt t (by omega)
  omega

/-- With an unchanged date the rollover is the identity. -/
theorem rollover_same_date (s : TrackerState) (aid ref now : Nat)
    (hr : s.running = true) (ha : s.current_activity_id = some aid)
    (hd : dateOf ref = dateOf now) :
    rollover_midnight_if_needed s ref now = (s, ref) := by
  unfold rollover_midnight_if_needed
  simp only [hr, ha]
  rw [if_pos hd]

/-- When Idle the rollover is the identity. -/
theorem rollover_not_running (s : TrackerState) (ref now : Nat) (hr : s.running = false) :
    rollover_midnight_if_needed s ref now = (s, ref) := by
  unfold rollover_midnight_if_needed
  cases ha : s.current_activity_id <;> simp only [hr, ha]

/-- Without a current activity the rollover is the identity. -/
theorem rollover_no_activity (s : TrackerState) (ref now : Nat)
    (ha : s.current_activity_id = none) :
    rollover_midnight_if_needed s ref now = (s, ref) := by
  unfold rollover_midnight_if_needed
  cases hr : s.running <;> simp only [hr, ha]

/-- With a changed date the rollover credits the stretch up to midnight,
finalizes at midnight, reopens from midnight and returns midnight. The
midnight stretch is always positive, so the guarded branch is taken. -/
theorem rollover_diff_date (s : TrackerState) (aid ref now : Nat)
    (hr : s.running = true) (ha : s.current_activity_id = some aid)
    (hd : ¬ dateOf ref = dateOf now) :
    rollover_midnight_if_needed s ref now =
      (create_new_session_row
        { finalize_current_session_row
            (add_to_daily_total s (dateOf ref) aid
              ((midnightAfter ref : Int) - (ref : Int)).toNat) (midnightAfter ref) with
          running := true, start_time := some (midnightAfter ref) }
        (midnightAfter ref),
       midnightAfter ref) := by
  have hpos : (0 : Int) < (midnightAfter ref : Int) - (ref : Int) := by
    have := midnightAfter_gt ref
    omega
  unfold rollover_midnight_if_needed
  simp only [hr, ha]
  rw [if_neg hd, if_pos hpos]

/-- `add_to_daily_total` touches only the `daily_totals` table. -/
theorem add_fields (s : TrackerState) (d a sec : Nat) :
    (add_to_daily_total s d a sec).running = s.running ∧
    (add_to_daily_total s d a sec).start_time = s.start_time ∧
    (add_to_daily_total s d a sec).current_activity_id = s.current_activity_id ∧
    (add_to_daily_total s d a sec).current_session_id = s.current_session_id ∧
    (add_to_daily_total s d a sec).last_autosave_dt = s.last_autosave_dt ∧
    (add_to_daily_total s d a sec).sessions = s.sessions ∧
    (add_to_daily_total s d a sec).next_session_id = s.next_session_id :=
  ⟨rfl, rfl, rfl, rfl, rfl, rfl, rfl⟩

/-- `finalize_current_session_row` behaves like the row update and clears
the live-row pointer. -/
theorem finalize_fields (s : TrackerState) (t : Nat) :
    (finalize_current_session_row s t).running = s.running ∧
    (finalize_current_session_row s t).start_time = s.start_time ∧
    (finalize_current_session_row s t).current_activity_id = s.current_activity_id ∧
    (finalize_current_session_row s t).current_session_id = none ∧
    (finalize_current_session_row s t).last_autosave_dt = s.last_autosave_dt ∧
    (finalize_current_session_row s t).daily_totals = s.daily_totals ∧
    (finalize_current_session_row s t).next_session_id = s.next_session_id := by
  have h := update_fields s t
  exact ⟨h.1, h.2.1, h.2.2.1, rfl, h.2.2.2.2.1, h.2.2.2.2.2.1, h.2.2.2.2.2.2.1⟩

/-- The rollover never moves the autosave checkpoint, and the reference
it returns is either unchanged or the following midnight. -/
theorem rollover_checkpoint (s : TrackerState) (ref now : Nat) :
    (rollover_midnight_if_needed s ref now).1.last_autosave_dt = s.last_autosave_dt ∧
    ((rollover_midnight_if_needed s ref now).2 = ref ∨
     (rollover_midnight_if_needed s ref now).2 = midnightAfter ref) := by
  cases hr : s.running with
  | false =>
      rw [rollover_not_running s ref now hr]
      exact ⟨rfl, Or.inl rfl⟩
  | true =>
      cases ha : s.current_activity_id with
      | none =>
          rw [rollover_no_activity s ref now ha]
          exact ⟨rfl, Or.inl rfl⟩
      | some aid =>
          by_cases hd : dateOf ref = dateOf now
          · rw [rollover_same_date s aid ref now hr ha hd]
            exact ⟨rfl, Or.inl rfl⟩
          · rw [rollover_diff_date s aid ref now hr ha hd]
            refine ⟨?_, Or.inr rfl⟩
            have e1 := (create_fields
              { finalize_current_session_row
                  (add_to_daily_total s (dateOf ref) aid
                    ((midnightAfter ref : Int) - (ref : Int)).toNat) (midnightAfter ref) with
                running := true, start_time := some (midnightAfter ref) }
              (midnightAfter ref)).2.2.2.1
            rw [e1]
            have e2 := (finalize_fields
              (add_to_daily_total s (dateOf ref) aid
                ((midnightAfter ref : Int) - (ref : Int)).toNat) (midnightAfter ref)).2.2.2.2.1
            have e3 := (add_fields s (dateOf ref) aid
              ((midnightAfter ref : Int) - (ref : Int)).toNat).2.2.2.2.1
            exact e2.trans e3

/-- `setEnd` never changes a row's id. -/
theorem setEnd_id (e st sid : Nat) (r : Session) : (setEnd e st sid r).id = r.id := by
  unfold setEnd
  split <;> rfl

/-- `setEnd` never changes a row's activity. -/
theorem setEnd_activity (e st sid : Nat) (r : Session) :
    (setEnd e st sid r).activity_id = r.activity_id := by
  unfold setEnd
  split <;> rfl

/-- Filtering by id commutes with the id-preserving row update. -/
theorem filter_map_setEnd (e st sid q : Nat) (l : List Session) :
    (l.map (setEnd e st sid)).filter (fun x => x.id == q) =
      (l.filter (fun x => x.id == q)).map (setEnd e st sid) := by
  induction l with
  | nil => rfl
  | cons a t ih =>
      rw [List.map_cons]
      cases hq : (a.id == q) with
      | true =>
          rw [List.filter_cons_of_pos (by simp [setEnd_id, hq]),
              List.filter_cons_of_pos (by simp [hq]), List.map_cons, ih]
      | false =>
          rw [List.filter_cons_of_neg (by simp [setEnd_id, hq]),
              List.filter_cons_of_neg (by simp [hq]), ih]

/-- No row of a table whose ids are all below `n` matches id `n`. -/
theorem filter_eq_nil_of_lt (l : List Session) (n : Nat) (h : ∀ r ∈ l, r.id < n) :
    l.filter (fun x => x.id == n) = [] := by
  induction l with
  | nil => rfl
  | cons a t ih =>
      have ha : a.id ≠ n := Nat.ne_of_lt (h a (List.mem_cons_self a t))
      rw [List.filter_cons_of_neg (by simp [ha])]
      exact ih (fun r hr => h r (List.mem_cons_of_mem a hr))

/-- `update_current_session_row` either leaves the state unchanged or
maps `setEnd` over the session table. -/
theorem update_char (s : TrackerState) (t : Nat) :
    update_current_session_row s t = s ∨
    ∃ sid st, s.running = true ∧ s.current_session_id = some sid ∧ s.start_time = some st ∧
      update_current_session_row s t = { s with sessions := s.sessions.map (setEnd t st sid) } := by
  unfold update_current_session_row
  cases hr : s.running with
  | false => exact Or.inl rfl
  | true =>
      cases hsid : s.current_session_id with
      | none => exact Or.inl rfl
      | some sid =>
          cases hst : s.start_time with
          | none => exact Or.inl rfl
          | some st => exact Or.inr ⟨sid, st, rfl, rfl, rfl, rfl⟩

/-- Transport the session invariant across states that agree on every
field it mentions. -/
theorem inv_congr (s s' : TrackerState)
    (hse : s'.sessions = s.sessions) (hns : s'.next_session_id = s.next_session_id)
    (hru : s'.running = s.running) (hsi : s'.current_session_id = s.current_session_id)
    (hai : s'.current_activity_id = s.current_activity_id) (hst : s'.start_time = s.start_time)
    (h : SessionInv s) : SessionInv s' := by
  obtain ⟨h1, h2, h3, h4⟩ := h
  refine ⟨fun r hr => ?_, fun hf => ?_, fun ht => ?_, fun q hq => ?_⟩
  · rw [hse] at hr
    rw [hns]
    exact h1 r hr
  · rw [hru] at hf
    rw [hsi]
    exact h2 hf
  · rw [hru] at ht
    rw [hai, hst]
    exact h3 ht
  · rw [hsi] at hq
    obtain ⟨r, hrf, hra⟩ := h4 q hq
    refine ⟨r, ?_, ?_⟩
    · rw [hse]
      exact hrf
    · rw [hai]
      exact hra

/-- The row update keeps all ids below the id counter. -/
theorem update_ids (s : TrackerState) (t : Nat)
    (h : ∀ r ∈ s.sessions, r.id < s.next_session_id) :
    ∀ r ∈ (update_current_session_row s t).sessions,
      r.id < (update_current_session_row s t).next_session_id := by
  rcases update_char s t with heq | ⟨sid, st, _, _, _, heq⟩ <;> rw [heq]
  · exact h
  · intro r hr
    obtain ⟨x, hx, hfx⟩ := List.mem_map.mp hr
    rw [← hfx, setEnd_id]
    exact h x hx

/-- The row update preserves the session invariant. -/
theorem inv_update (s : TrackerState) (t : Nat) (h : SessionInv s) :
    SessionInv (update_current_session_row s t) := by
  obtain ⟨h1, h2, h3, h4⟩ := h
  rcases update_char s t with heq | ⟨sid, st, _, _, _, heq⟩ <;> rw [heq]
  · exact ⟨h1, h2, h3, h4⟩
  · refine ⟨fun r hr => ?_, h2, h3, fun q hq => ?_⟩
    · obtain ⟨x, hx, hfx⟩ := List.mem_map.mp hr
      rw [← hfx, setEnd_id]
      exact h1 x hx
    · obtain ⟨r, hrf, hra⟩ := h4 q hq
      refine ⟨setEnd t st sid r, ?_, ?_⟩
      · show (s.sessions.map (setEnd t st sid)).filter (fun x => x.id == q) = _
        rw [filter_map_setEnd, hrf]
        rfl
      · rw [setEnd_activity]
        exact hra

/-- Finalizing preserves the session invariant. -/
theorem inv_finalize (s : TrackerState) (t : Nat) (h : SessionInv s) :
    SessionInv (finalize_current_session_row s t) := by
  obtain ⟨h1, h2, h3, h4⟩ := inv_update s t h
  unfold finalize_current_session_row
  refine ⟨h1, fun _ => rfl, h3, fun q hq => ?_⟩
  simp at hq

/-- `save_previous_activity_if_running` preserves the invariant and
always leaves the live-row pointer empty. -/
theorem inv_save_previous (s : TrackerState) (now : Nat) (h : SessionInv s) :
    SessionInv (save_previous_activity_if_running s now) ∧
    (save_previous_activity_if_running s now).current_session_id = none := by
  unfold save_previous_activity_if_running
  by_cases hc : s.running = true ∧ s.current_activity_id ≠ none ∧ s.start_time ≠ none
  · rw [if_pos hc]
    obtain ⟨h1, h2, h3, h4⟩ := inv_finalize s now h
    refine ⟨⟨h1, fun _ => rfl, fun ht => ?_, fun q hq => ?_⟩, rfl⟩
    · simp at ht
    · rw [(finalize_fields s now).2.2.2.1] at hq
      exact Option.noConfusion hq
  · rw [if_neg hc]
    refine ⟨h, ?_⟩
    obtain ⟨h1, h2, h3, h4⟩ := h
    cases hb : s.running with
    | false => exact h2 hb
    | true =>
        obtain ⟨hna, hns⟩ := h3 hb
        exact absurd ⟨hb, hna, hns⟩ hc

/-- Opening a fresh session row from a Running state with an activity
establishes the invariant: the fresh id is the unique live row and it
carries the current activity. -/
theorem inv_create (s : TrackerState) (t aid : Nat) (ha : s.current_activity_id = some aid)
    (hrun : s.running = true) (hst : s.start_time ≠ none)
    (h1 : ∀ r ∈ s.sessions, r.id < s.next_session_id) :
    SessionInv (create_new_session_row s t) := by
  unfold create_new_session_row
  rw [ha]
  refine ⟨fun r hr => ?_, fun hf => ?_, fun _ => ⟨?_, ?_⟩, fun q hq => ?_⟩
  · rcases List.mem_append.mp hr with hro | hrn
    · exact Nat.lt_succ_of_lt (h1 r hro)
    · rw [List.mem_singleton.mp hrn]
      exact Nat.lt_succ_self _
  · rw [hrun] at hf
    exact Bool.noConfusion hf
  · simp
  · exact hst
  · have hqe : q = s.next_session_id := (Option.some.inj hq).symm
    subst hqe
    refine ⟨⟨s.next_session_id, aid, t, t, 0⟩, ?_, rfl⟩
    rw [List.filter_append, filter_eq_nil_of_lt s.sessions s.next_session_id h1,
        List.filter_cons_of_pos (by simp)]
    rfl

/-- `_start_activity` preserves the session invariant. -/
theorem inv_start_activity (s : TrackerState) (name : String) (now : Nat)
    (h : SessionInv s) : SessionInv (start_activity s name now) := by
  obtain ⟨hs1, hsid⟩ := inv_save_previous s now h
  unfold start_activity
  refine inv_create _ now (get_or_create_activity (save_previous_activity_if_running s now) name).2
    rfl rfl (by simp) ?_
  intro r hr
  have hsess := (get_or_create_fields (save_previous_activity_if_running s now) name).2.2.2.2.2.2.1
  have hnext := (get_or_create_fields (save_previous_activity_if_running s now) name).2.2.2.2.2.2.2
  show r.id < (get_or_create_activity (save_previous_activity_if_running s now) name).1.next_session_id
  rw [hnext]
  refine hs1.1 r ?_
  rw [← hsess]
  exact hr

/-- The midnight rollover preserves the session invariant. -/
theorem inv_rollover (s : TrackerState) (ref now : Nat) (h : SessionInv s) :
    SessionInv ((rollover_midnight_if_needed s ref now).1) := by
  cases hr : s.running with
  | false =>
      rw [rollover_not_running s ref now hr]
      exact h
  | true =>
      cases ha : s.current_activity_id with
      | none =>
          rw [rollover_no_activity s ref now ha]
          exact h
      | some aid =>
          by_cases hd : dateOf ref = dateOf now
          · rw [rollover_same_date s aid ref now hr ha hd]
            exact h
          · rw [rollover_diff_date s aid ref now hr ha hd]
            have hadd : SessionInv (add_to_daily_total s (dateOf ref) aid
                ((midnightAfter ref : Int) - (ref : Int)).toNat) :=
              inv_congr s _ rfl rfl rfl rfl rfl rfl h
            have hfin := inv_finalize (add_to_daily_total s (dateOf ref) aid
                ((midnightAfter ref : Int) - (ref : Int)).toNat) (midnightAfter ref) hadd
            refine inv_create _ (midnightAfter ref) aid ?_ rfl (by simp) ?_
            · have e1 := (finalize_fields (add_to_daily_total s (dateOf ref) aid
                  ((midnightAfter ref : Int) - (ref : Int)).toNat) (midnightAfter ref)).2.2.1
              have e2 := (add_fields s (dateOf ref) aid
                  ((midnightAfter ref : Int) - (ref : Int)).toNat).2.2.1
              show (finalize_current_session_row (add_to_daily_total s (dateOf ref) aid
                  ((midnightAfter ref : Int) - (ref : Int)).toNat)
                  (midnightAfter ref)).current_activity_id = some aid
              rw [e1, e2]
              exact ha
            · exact hfin.1

/-- The autosave tick preserves the session invariant. -/
theorem inv_do_autosave (s : TrackerState) (now : Nat) (h : SessionInv s) :
    SessionInv (do_autosave s now) := by
  cases hr : s.running with
  | false =>
      have heq : do_autosave s now = { s with last_autosave_dt := now } := by
        unfold do_autosave
        cases ha : s.current_activity_id <;> simp only [hr, ha]
      rw [heq]
      exact inv_congr s _ rfl rfl rfl rfl rfl rfl h
  | true =>
      cases ha : s.current_activity_id with
      | none =>
          have heq : do_autosave s now = { s with last_autosave_dt := now } := by
            unfold do_autosave
            simp only [hr, ha]
          rw [heq]
          exact inv_congr s _ rfl rfl rfl rfl rfl rfl h
      | some aid =>
          have hroll := inv_rollover s s.last_autosave_dt now h
          unfold do_autosave
          simp only [hr, ha]
          apply inv_update
          by_cases hpos : (0 : Int) <
              (now : Int) - ((rollover_midnight_if_needed s s.last_autosave_dt now).2 : Int)
          · rw [if_pos hpos]
            cases ha2 : (rollover_midnight_if_needed s s.last_autosave_dt now).1.current_activity_id with
            | none => exact hroll
            | some a2 =>
                exact inv_congr (rollover_midnight_if_needed s s.last_autosave_dt now).1 _
                  rfl rfl rfl rfl rfl rfl hroll
          · rw [if_neg hpos]
            exact hroll

/-- Every external trigger preserves the session invariant. -/
theorem inv_applyOp (s : TrackerState) (op : Op) (h : SessionInv s) :
    SessionInv (applyOp s op) := by
  cases op with
  | startOp name t =>
      show SessionInv (start s name t)
      unfold start
      by_cases hr : s.running = true
      · rw [if_pos hr]
        exact h
      · rw [if_neg hr]
        exact inv_start_activity s name t h
  | switchOp name t =>
      show SessionInv (switch_activity s name t)
      unfold switch_activity
      by_cases hc : name = "Custom"
      · rw [if_pos hc]
        exact h
      · rw [if_neg hc]
        exact inv_start_activity s name t h
  | stopOp t =>
      show SessionInv (stop s t)
      unfold stop
      exact (inv_save_previous _ t (inv_do_autosave s t h)).1
  | tickOp t =>
      show SessionInv (do_autosave s t)
      exact inv_do_autosave s t h

/-- The invariant propagates through any run of triggers. -/
theorem inv_run (s : TrackerState) (ops : List Op) (h : SessionInv s) :
    SessionInv (run s ops) := by
  induction ops generalizing s with
  | nil => exact h
  | cons op rest ih => exact ih (applyOp s op) (inv_applyOp s op h)

/-- The freshly initialised tracker satisfies the session invariant. -/
theorem inv_init (t0 : Nat) : SessionInv (initState t0) := by
  refine ⟨fun r hr => ?_, fun _ => rfl, fun ht => ?_, fun q hq => ?_⟩
  · simp [initState] at hr
  · simp [initState] at ht
  · simp [initState] at hq

/-- Claim C3 (confirmed): after every finite sequence of
start/switch/stop/tick triggers from the initial state, either no session
row is live (still pointed at by `current_session_id`) or exactly one is,
and that row's `activity_id` equals `current_activity_id`. -/
theorem C3_at_most_one_live_session (t0 : Nat) (ops : List Op) :
    liveRows (run (initState t0) ops) = [] ∨
    ∃ r, liveRows (run (initState t0) ops) = [r] ∧
      some r.activity_id = (run (initState t0) ops).current_activity_id := by
  obtain ⟨h1, h2, h3, h4⟩ := inv_run (initState t0) ops (inv_init t0)
  cases hsid : (run (initState t0) ops).current_session_id with
  | none =>
      left
      unfold liveRows
      rw [hsid]
  | some sid =>
      right
      obtain ⟨r, hrf, hra⟩ := h4 sid hsid
      refine ⟨r, ?_, hra⟩
      unfold liveRows
      rw [hsid]
      exact hrf

/-- Claim C7 (amended, proved): while Running with an activity, a tick
whose timestamp is earlier than `_last_autosave_dt` but on the same
calendar date credits nothing to `daily_totals` and leaves
`_last_autosave_dt` untouched. (When the earlier timestamp falls on a
previous calendar date the rollover path credits positive seconds — see
the counterexample — and an Idle tick sets the checkpoint to `now` even
when that moves it backward.) -/
theorem C7_no_negative_credit_amended (s : TrackerState) (now aid : Nat)
    (hr : s.running = true) (ha : s.current_activity_id = some aid)
    (hlt : now < s.last_autosave_dt) (hd : dateOf now = dateOf s.last_autosave_dt) :
    (do_autosave s now).daily_totals = s.daily_totals ∧
    (do_autosave s now).last_autosave_dt = s.last_autosave_dt := by
  have hroll : rollover_midnight_if_needed s s.last_autosave_dt now = (s, s.last_autosave_dt) :=
    rollover_same_date s aid s.last_autosave_dt now hr ha hd.symm
  have hneg : ¬ ((0 : Int) < (now : Int) - (s.last_autosave_dt : Int)) := by omega
  unfold do_autosave
  simp only [hr, ha, hroll]
  rw [if_neg hneg]
  exact ⟨(update_fields s now).2.2.2.2.2.1, (update_fields s now).2.2.2.2.1⟩

/-- Claim C7 witness: on `stateC7` (Running Work, checkpoint 2024-01-02
00:10:00) a tick at 2024-01-02 00:05:00 — five minutes earlier, same
date — credits nothing and keeps the checkpoint. -/
theorem C7_witness :
    stateC7.running = true ∧
    stateC7.current_activity_id = some 1 ∧
    mkDT date20240102 0 5 0 < stateC7.last_autosave_dt ∧
    dateOf (mkDT date20240102 0 5 0) = dateOf stateC7.last_autosave_dt ∧
    (do_autosave stateC7 (mkDT date20240102 0 5 0)).daily_totals = stateC7.daily_totals ∧
    (do_autosave stateC7 (mkDT date20240102 0 5 0)).last_autosave_dt =
      stateC7.last_autosave_dt := by
  refine ⟨by decide, by decide, by decide, by decide, ?_⟩
  exact C7_no_negative_credit_amended stateC7 (mkDT date20240102 0 5 0) 1
    (by decide) (by decide) (by decide) (by decide)

/-- Within a Running tick, the checkpoint `_last_autosave_dt` never moves
backward: it is either untouched or advanced to `now`, which then lies
strictly beyond the old checkpoint. -/
theorem do_autosave_checkpoint_mono (s : TrackerState) (now aid : Nat)
    (hr : s.running = true) (ha : s.current_activity_id = some aid) :
    s.last_autosave_dt ≤ (do_autosave s now).last_autosave_dt := by
  have hrc := rollover_checkpoint s s.last_autosave_dt now
  unfold do_autosave
  simp only [hr, ha]
  by_cases hpos : (0 : Int) <
      (now : Int) - ((rollover_midnight_if_needed s s.last_autosave_dt now).2 : Int)
  · rw [if_pos hpos]
    cases ha2 : (rollover_midnight_if_needed s s.last_autosave_dt now).1.current_activity_id with
    | none =>
        rw [(update_fields _ _).2.2.2.2.1, hrc.1]
    | some a2 =>
        rw [(update_fields _ _).2.2.2.2.1]
        show s.last_autosave_dt ≤ now
        rcases hrc.2 with h2 | h2
        · omega
        · have hm := midnightAfter_gt s.last_autosave_dt
          omega
  · rw [if_neg hpos]
    rw [(update_fields _ _).2.2.2.2.1, hrc.1]

/-- Creating a session row from a table with fresh ids makes the new row
the unique live one. -/
theorem create_liveRows (s : TrackerState) (t aid : Nat)
    (ha : s.current_activity_id = some aid)
    (h1 : ∀ r ∈ s.sessions, r.id < s.next_session_id) :
    liveRows (create_new_session_row s t) = [⟨s.next_session_id, aid, t, t, 0⟩] := by
  unfold create_new_session_row
  rw [ha]
  show (s.sessions ++ [(⟨s.next_session_id, aid, t, t, 0⟩ : Session)]).filter
      (fun r : Session => r.id == s.next_session_id) =
    [(⟨s.next_session_id, aid, t, t, 0⟩ : Session)]
  rw [List.filter_append, filter_eq_nil_of_lt s.sessions s.next_session_id h1,
      List.filter_cons_of_pos (by simp)]
  rfl

/-- From any invariant-satisfying state, `_start_activity` leaves exactly
one live row, freshly opened at `now`. -/
theorem start_activity_liveRows (s : TrackerState) (name : String) (now : Nat)
    (h : SessionInv s) :
    liveRows (start_activity s name now) =
      [⟨(get_or_create_activity (save_previous_activity_if_running s now) name).1.next_session_id,
        (get_or_create_activity (save_previous_activity_if_running s now) name).2,
        now, now, 0⟩] := by
  obtain ⟨hs1, _⟩ := inv_save_previous s now h
  have hb : ∀ x ∈ (get_or_create_activity (save_previous_activity_if_running s now) name).1.sessions,
      x.id < (get_or_create_activity (save_previous_activity_if_running s now) name).1.next_session_id := by
    intro x hx
    rw [(get_or_create_fields (save_previous_activity_if_running s now) name).2.2.2.2.2.2.2]
    refine hs1.1 x ?_
    rw [← (get_or_create_fields (save_previous_activity_if_running s now) name).2.2.2.2.2.2.1]
    exact hx
  unfold start_activity
  exact create_liveRows _ now
    (get_or_create_activity (save_previous_activity_if_running s now) name).2 rfl hb

/-- Claim C10 (amended, proved): `_start_activity` — the common body of
every start and switch — sets the checkpoint `_last_autosave_dt` to `now`
and opens its live session at exactly `now` (so the checkpoint equals the
new session's start), and no tick taken while Running ever moves the
checkpoint backward; the original claim's stronger invariant that the
checkpoint is never earlier than the live session's start fails only for
the session a midnight rollover opens when the tick lands exactly on
midnight (see the counterexample). -/
theorem C10_checkpoint_amended (t0 : Nat) (ops : List Op) (name : String) (now : Nat) :
    (start_activity (run (initState t0) ops) name now).last_autosave_dt = now ∧
    (start_activity (run (initState t0) ops) name now).start_time = some now ∧
    (∀ r ∈ liveRows (start_activity (run (initState t0) ops) name now), r.start_ts = now) ∧
    (∀ aid, (run (initState t0) ops).running = true →
        (run (initState t0) ops).current_activity_id = some aid →
        (run (initState t0) ops).last_autosave_dt ≤
          (do_autosave (run (initState t0) ops) now).last_autosave_dt) := by
  have hinv := inv_run (initState t0) ops (inv_init t0)
  refine ⟨?_, ?_, ?_, fun aid hr ha => do_autosave_checkpoint_mono _ now aid hr ha⟩
  · unfold start_activity
    exact (create_fields _ _).2.2.2.1
  · unfold start_activity
    exact (create_fields _ _).2.1
  · intro r hr
    rw [start_activity_liveRows _ name now hinv] at hr
    rw [List.mem_singleton.mp hr]

/-- Claim C10 witness: applied to the run that produced `runningWork`;
switching to Break at 10:01:00 resets checkpoint, start time and the new
live row to 10:01:00, and a tick on the Running state does not move the
checkpoint backward. -/
theorem C10_witness :
    runningWork.running = true ∧
    runningWork.current_activity_id = some 1 ∧
    (start_activity runningWork "Break" (t1C1 + 60)).last_autosave_dt = t1C1 + 60 ∧
    (start_activity runningWork "Break" (t1C1 + 60)).start_time = some (t1C1 + 60) ∧
    (⟨2, 3, t1C1 + 60, t1C1 + 60, 0⟩ : Session) ∈
      liveRows (start_activity runningWork "Break" (t1C1 + 60)) ∧
    Session.start_ts ⟨2, 3, t1C1 + 60, t1C1 + 60, 0⟩ = t1C1 + 60 ∧
    runningWork.last_autosave_dt ≤ (do_autosave runningWork (t1C1 + 60)).last_autosave_dt := by
  have h := C10_checkpoint_amended t1C1 [Op.startOp "Work" t1C1] "Break" (t1C1 + 60)
  refine ⟨by decide, by decide, h.1, h.2.1, by decide, ?_, h.2.2.2 1 (by decide) (by decide)⟩
  exact h.2.2.1 ⟨2, 3, t1C1 + 60, t1C1 + 60, 0⟩ (by decide)

end ActivityLogger
